import Mathlib

/-!
Verification of the ticket/OAuth backend in `src/app/main.py` against its
natural-language specification.  The Python handlers are embedded shallowly:
`datetime.now()` results become explicit parameters (integer seconds for
timestamps, a `Date` record for the `strftime('%Y%m%d')` call, an integer for
Python's `hash(datetime.now())`), JSON objects become association lists, and
HTTP exceptions become `Except` errors.
-/

set_option maxRecDepth 8000
set_option linter.unusedVariables false

namespace VfxApp

/-- `TicketStatus` enum of main.py (`open` is a Lean keyword, written `open_`). -/
inductive TicketStatus
| open_
| in_progress
| resolved
| closed
deriving DecidableEq, Repr

/-- `TicketPriority` enum of main.py. -/
inductive TicketPriority
| low
| medium
| high
| critical
deriving DecidableEq, Repr

/-- `TicketType` enum of main.py. -/
inductive TicketType
| bug
| feature
| task
| technical_debt
deriving DecidableEq, Repr

/-- Timestamps: `datetime` values modelled as integer seconds; `timedelta(days=1)`
is 86400 seconds, `timedelta(hours=1)` is 3600 seconds. -/
abbrev Timestamp := Int

/-- The calendar date of a `datetime`, as consumed by `strftime('%Y%m%d')`. -/
structure Date where
  year : Nat
  month : Nat
  day : Nat
deriving DecidableEq, Repr

/-- `TicketCreate` pydantic model (main.py lines 1522-1536).  Hour counts
(`time_estimate`) are Python floats, modelled as rationals. -/
structure TicketCreate where
  title : String
  description : String
  status : TicketStatus
  priority : TicketPriority
  type : TicketType
  assigned_to : Option String
  project_id : String
  asset_id : Option String
  shot_id : Option String
  due_date : Option Timestamp
  tags : List String
  environment : Option String
  reproducibility_steps : Option String
  time_estimate : Option Rat
deriving DecidableEq, Repr

/-- `TicketResponse` pydantic model (main.py lines 1539-1555). -/
structure TicketResponse where
  id : String
  title : String
  description : String
  status : TicketStatus
  priority : TicketPriority
  type : TicketType
  created_by : String
  assigned_to : Option String
  project_id : String
  created_at : Timestamp
  updated_at : Timestamp
  due_date : Option Timestamp
  tags : List String
  environment : Option String
  time_estimate : Option Rat
  time_spent : Option Rat
deriving DecidableEq, Repr

/-- `TicketUpdate` pydantic model (main.py lines 1639-1646): every field optional,
defaulting to `None`. -/
structure TicketUpdate where
  title : Option String
  description : Option String
  status : Option TicketStatus
  priority : Option TicketPriority
  assigned_to : Option String
  due_date : Option Timestamp
  tags : Option (List String)
deriving DecidableEq, Repr

/-- The all-`None` `TicketUpdate` payload `{}`. -/
def emptyUpdate : TicketUpdate :=
  ⟨none, none, none, none, none, none, none⟩

/-- `TicketComment` pydantic model (main.py lines 1633-1637). -/
structure TicketComment where
  content : String
  author : String
  created_at : Timestamp
  attachments : List String
deriving DecidableEq, Repr

/-- Zero-padded decimal rendering, as `strftime` does for `%Y` (width 4) and
`%m`/`%d` (width 2). -/
def padNum (w : Nat) (n : Nat) : String :=
  let s := toString n
  if s.length < w then String.mk (List.replicate (w - s.length) '0') ++ s else s

/-- `datetime.now().strftime('%Y%m%d')` of main.py line 1563. -/
def strftimeYmd (d : Date) : String :=
  padNum 4 d.year ++ padNum 2 d.month ++ padNum 2 d.day

/-- Python string slice `s[:16]` (main.py line 1563); all characters involved are
ASCII, so slicing by code points is faithful. -/
def pySlice16 (s : String) : String :=
  String.mk (s.data.take 16)

/-- The ticket-id expression of main.py line 1563:
`f"TICKET-{datetime.now().strftime('%Y%m%d')}-{hash(datetime.now())}"[:16]`.
`d` is the date of the first `datetime.now()` call and `h` the Python hash of
the second. -/
def make_ticket_id (d : Date) (h : Int) : String :=
  pySlice16 ("TICKET-" ++ strftimeYmd d ++ "-" ++ toString h)

/-- First-registered `POST /api/tickets` handler `create_ticket`
(main.py lines 1558-1581).  The successive `datetime.now()` calls appear as the
parameters `idDate`, `idHash`, `createdAt`, `updatedAt`; `current_user` is the
handler's defaulted parameter (default `"user123"`).  Fields of `TicketCreate`
that `TicketResponse` lacks (`asset_id`, `shot_id`, `reproducibility_steps`)
are ignored by pydantic, as `**ticket.dict()` feeds them to a model without
those fields. -/
def create_ticket (ticket : TicketCreate) (current_user : String)
    (idDate : Date) (idHash : Int) (createdAt updatedAt : Timestamp) :
    TicketResponse :=
  { id := make_ticket_id idDate idHash
    title := ticket.title
    description := ticket.description
    status := ticket.status
    priority := ticket.priority
    type := ticket.type
    created_by := current_user
    assigned_to := ticket.assigned_to
    project_id := ticket.project_id
    created_at := createdAt
    updated_at := updatedAt
    due_date := ticket.due_date
    tags := ticket.tags
    environment := ticket.environment
    time_estimate := ticket.time_estimate
    time_spent := some 0 }

/-- `GET /api/tickets/{ticket_id}` handler `get_ticket` (main.py lines
1583-1602): returns the same mock `TicketResponse` for every `ticket_id`, only
echoing the id back.  It consults no store and has no `NotFound` branch.
`createdAt`/`updatedAt` stand for its two `datetime.now()` calls; the fields the
source omits (`due_date`, `time_estimate`) take their pydantic defaults `None`,
and `time_spent` its declared default `0.0`. -/
def get_ticket (ticket_id : String) (createdAt updatedAt : Timestamp) :
    TicketResponse :=
  { id := ticket_id
    title := "Sample Ticket"
    description := "This is a sample ticket"
    status := .open_
    priority := .medium
    type := .task
    created_by := "user123"
    assigned_to := none
    project_id := "project123"
    created_at := createdAt
    updated_at := updatedAt
    due_date := none
    tags := ["sample"]
    environment := some "maya_2024"
    time_estimate := none
    time_spent := some 0 }

/-- Python's `x or y` on an optional string: `None` and `""` are falsy
(main.py lines 1661-1662 use `update.title or "Original Title"`). -/
def pyOrStr (o : Option String) (d : String) : String :=
  match o with
  | none => d
  | some s => if s = "" then d else s

/-- `PUT /api/tickets/{ticket_id}` handler `update_ticket` (main.py lines
1649-1673): fabricates a mock response from the payload alone.  There is no
stored ticket; `created_by` is the constant `"original_user"`, `created_at` is
`datetime.now() - timedelta(days=1)`, `type` is always `TASK`, and absent
payload fields fall back to mock constants via Python `or`.  Enum and list
payload fields use `Option.getD`: a present enum member is a non-empty string,
hence truthy, and an absent (`None`) `tags` and a present empty list both
produce `[]`. -/
def update_ticket (ticket_id : String) (update : TicketUpdate)
    (now : Timestamp) : TicketResponse :=
  { id := ticket_id
    title := pyOrStr update.title "Original Title"
    description := pyOrStr update.description "Original Description"
    status := update.status.getD .open_
    priority := update.priority.getD .medium
    type := .task
    created_by := "original_user"
    assigned_to := update.assigned_to
    project_id := "project123"
    created_at := now - 86400
    updated_at := now
    due_date := none
    tags := update.tags.getD []
    environment := some "maya_2024"
    time_estimate := none
    time_spent := some 0 }

/-- Response body of `POST /api/tickets/{ticket_id}/comments` (main.py lines
1675-1686). -/
structure CommentAck where
  message : String
  ticket_id : String
  comment_id : String
deriving DecidableEq, Repr

/-- `add_ticket_comment` handler: unconditionally acknowledges, for every
`ticket_id`; `nowHash` is `hash(datetime.now())` used in the comment id. -/
def add_ticket_comment (ticket_id : String) (comment : TicketComment)
    (nowHash : Int) : CommentAck :=
  { message := "Comment added successfully"
    ticket_id := ticket_id
    comment_id := "comment_" ++ toString nowHash }

/-- One audit event of `GET /api/tickets/{ticket_id}/history`. -/
structure HistoryEvent where
  timestamp : Timestamp
  type : String
  user : String
  details : String
deriving DecidableEq, Repr

/-- Response body of `GET /api/tickets/{ticket_id}/history`. -/
structure HistoryResponse where
  ticket_id : String
  history : List HistoryEvent
deriving DecidableEq, Repr

/-- `get_ticket_history` handler (main.py lines 1688-1713): the same fabricated
three-event history for every `ticket_id`, offset from `now`. -/
def get_ticket_history (ticket_id : String) (now : Timestamp) :
    HistoryResponse :=
  { ticket_id := ticket_id
    history :=
      [ ⟨now - 86400, "created", "user123", "Ticket created"⟩
      , ⟨now - 43200, "status_changed", "user456",
          "Status changed from \x27open\x27 to \x27in_progress\x27"⟩
      , ⟨now - 7200, "comment_added", "user789",
          "Added comment: \x27Working on this now\x27"⟩ ] }

/-- Response body of `POST /api/tickets/{ticket_id}/assign`. -/
structure AssignAck where
  message : String
  ticket_id : String
  assignee : String
deriving DecidableEq, Repr

/-- `assign_ticket` handler (main.py lines 1715-1726): unconditional success
acknowledgement for every `ticket_id`. -/
def assign_ticket (ticket_id : String) (assignee : String) : AssignAck :=
  { message := "Ticket assigned successfully"
    ticket_id := ticket_id
    assignee := assignee }

/-- Response body of `GET /api/tickets/statistics` (main.py lines 1728-1754),
a constant aggregate. -/
structure TicketStatistics where
  total_tickets : Nat
  status_breakdown : List (String × Nat)
  priority_breakdown : List (String × Nat)
  average_resolution_time : String
  most_active_users : List (String × Nat)
deriving DecidableEq, Repr

/-- `get_ticket_statistics` handler: ignores its filters and returns literal
mock numbers. -/
def get_ticket_statistics (project_id : Option String)
    (start_date end_date : Option Timestamp) : TicketStatistics :=
  { total_tickets := 150
    status_breakdown :=
      [("open", 45), ("in_progress", 38), ("resolved", 52), ("closed", 15)]
    priority_breakdown :=
      [("low", 30), ("medium", 75), ("high", 35), ("critical", 10)]
    average_resolution_time := "3.5 days"
    most_active_users := [("user123", 25), ("user456", 18)] }

/-- First-registered `GET /api/tickets` handler `list_tickets` (main.py lines
1604-1630): ignores every filter and returns a one-element mock list. -/
def list_tickets (status : Option TicketStatus)
    (priority : Option TicketPriority) (assigned_to project_id : Option String)
    (createdAt updatedAt : Timestamp) : List TicketResponse :=
  [ { id := "TICKET-123"
      title := "Sample Ticket"
      description := "This is a sample ticket"
      status := .open_
      priority := .medium
      type := .task
      created_by := "user123"
      assigned_to := none
      project_id := "project123"
      created_at := createdAt
      updated_at := updatedAt
      due_date := none
      tags := ["sample"]
      environment := some "maya_2024"
      time_estimate := none
      time_spent := some 0 } ]

/-- The dict literal returned by the second-registered `POST /api/tickets`
handler `create_ticket` (main.py lines 1805-1823).  Its id is
`f"TICKET-{hash(datetime.now())}"` — no date component and no truncation —
so the two registrations are observably different handlers. -/
def create_ticket_v2_id (nowHash : Int) : String :=
  "TICKET-" ++ toString nowHash

/-- The dict literal returned by the second-registered `GET /api/tickets`
handler `get_tickets` (main.py lines 1776-1803): a single mock entry with id
`"TICKET-001"` and title `"Test Ticket"`. -/
def get_tickets_v2_ids : List String :=
  ["TICKET-001"]

/-!
## Route registration and Starlette dispatch

The decorators `@app.get`/`@app.post`/`@app.put` append an `APIRoute` to the
application's route list in source order.  Starlette's `Router` dispatches a
request to the FIRST route in that list whose compiled path fully matches; a
path parameter `{name}` compiles to the regex `[^/]+`, i.e. one non-empty
segment.  Re-registering a path therefore leaves the earlier route in charge,
and a later literal path shadowed by an earlier parameterised one is
unreachable.  Patterns and request paths are modelled as their non-empty
segment lists (the split on `/` with the leading empty segment dropped).
-/

/-- One compiled path segment: a literal, or a `{name}` parameter. -/
inductive Seg
| lit (s : String)
| param (name : String)
deriving DecidableEq, Repr

/-- HTTP methods used by the app's routes. -/
inductive Method
| GET
| POST
| PUT
deriving DecidableEq, Repr

/-- Tags naming each decorated handler of main.py, in no particular order. -/
inductive Handler
| root
| discordLogin
| discordCallback
| debugOauth
| botInvite
| getAssets
| assetReview
| productivityStats
| pipelineDependencies
| automatedTasks
| renderQueue
| renderJobs
| projectMilestones
| systemHealth
| notificationsDiscord
| createIssue
| getIssues
| createTicketV1
| getTicket
| listTickets
| updateTicket
| addTicketComment
| getTicketHistory
| assignTicket
| getTicketStatistics
| getTicketsV2
| createTicketV2
| debugTickets
| apiTest
| oldTickets
| botStatus
deriving DecidableEq, Repr

/-- The application's route table: every `@app.<method>` registration of
main.py, in source order (decorator lines 68, 1153, 1174, 1215, 1231, 1297,
1306, 1312, 1334, 1353, 1379, 1398, 1404, 1420, 1446, 1490, 1496, 1558, 1583,
1604, 1649, 1675, 1688, 1715, 1728, 1776, 1805, 1826, 1840, 1846, 2014). -/
def routeTable : List (Method × List Seg × Handler) :=
  [ (.GET, [], .root)
  , (.GET, [.lit "auth", .lit "login"], .discordLogin)
  , (.GET, [.lit "auth", .lit "callback"], .discordCallback)
  , (.GET, [.lit "debug", .lit "oauth"], .debugOauth)
  , (.GET, [.lit "auth", .lit "bot-invite"], .botInvite)
  , (.GET, [.lit "api", .lit "assets"], .getAssets)
  , (.POST, [.lit "api", .lit "assets", .param "asset_id", .lit "review"],
      .assetReview)
  , (.GET, [.lit "api", .lit "statistics", .lit "productivity"],
      .productivityStats)
  , (.GET, [.lit "api", .lit "pipeline", .lit "dependencies"],
      .pipelineDependencies)
  , (.POST, [.lit "api", .lit "pipeline", .lit "automated-tasks"],
      .automatedTasks)
  , (.GET, [.lit "api", .lit "render-queue"], .renderQueue)
  , (.POST, [.lit "api", .lit "render-jobs"], .renderJobs)
  , (.GET, [.lit "api", .lit "projects", .param "project_id",
      .lit "milestones"], .projectMilestones)
  , (.GET, [.lit "api", .lit "system", .lit "health"], .systemHealth)
  , (.POST, [.lit "api", .lit "notifications", .lit "discord"],
      .notificationsDiscord)
  , (.POST, [.lit "api", .lit "issues"], .createIssue)
  , (.GET, [.lit "api", .lit "issues"], .getIssues)
  , (.POST, [.lit "api", .lit "tickets"], .createTicketV1)
  , (.GET, [.lit "api", .lit "tickets", .param "ticket_id"], .getTicket)
  , (.GET, [.lit "api", .lit "tickets"], .listTickets)
  , (.PUT, [.lit "api", .lit "tickets", .param "ticket_id"], .updateTicket)
  , (.POST, [.lit "api", .lit "tickets", .param "ticket_id", .lit "comments"],
      .addTicketComment)
  , (.GET, [.lit "api", .lit "tickets", .param "ticket_id", .lit "history"],
      .getTicketHistory)
  , (.POST, [.lit "api", .lit "tickets", .param "ticket_id", .lit "assign"],
      .assignTicket)
  , (.GET, [.lit "api", .lit "tickets", .lit "statistics"],
      .getTicketStatistics)
  , (.GET, [.lit "api", .lit "tickets"], .getTicketsV2)
  , (.POST, [.lit "api", .lit "tickets"], .createTicketV2)
  , (.GET, [.lit "api", .lit "debug", .lit "tickets"], .debugTickets)
  , (.GET, [.lit "api", .lit "test"], .apiTest)
  , (.GET, [.lit "api", .lit "old-tickets"], .oldTickets)
  , (.GET, [.lit "api", .lit "bot", .lit "status"], .botStatus) ]

/-- Whether one compiled segment accepts one request segment: a literal must
match exactly; a parameter (regex `[^/]+`) accepts any non-empty segment. -/
def segMatches : Seg → String → Bool
  | .lit l, s => l = s
  | .param _, s => s ≠ ""

/-- Whether a compiled path fully matches a request path. -/
def pathMatches (pat : List Seg) (path : List String) : Bool :=
  pat.length = path.length && (pat.zip path).all fun ps => segMatches ps.1 ps.2

/-- Starlette dispatch: first route of matching method and path wins. -/
def resolve (m : Method) (path : List String) : Option Handler :=
  (routeTable.find? fun r => r.1 = m && pathMatches r.2.1 path).map
    fun r => r.2.2

/-- The path-parameter captures a matching route extracts from a request. -/
def captures (pat : List Seg) (path : List String) : List (String × String) :=
  (pat.zip path).filterMap fun ps =>
    match ps.1 with
    | .param n => some (n, ps.2)
    | .lit _ => none

/-!
## OAuth gateway
-/

/-- Characters `urllib.parse.quote` leaves unescaped under its default
`safe='/'`: ASCII letters, digits, `_.-~`, and `/`. -/
def quoteSafe (c : Char) : Bool :=
  c.isAlpha || c.isDigit || c = '_' || c = '.' || c = '-' || c = '~' || c = '/'

/-- Upper-case hexadecimal digit. -/
def hexDigit (n : Nat) : Char :=
  if n < 10 then Char.ofNat (48 + n) else Char.ofNat (55 + n)

/-- Percent-encoding of one character.  All strings quoted in main.py are
ASCII, so one character is one UTF-8 byte. -/
def quoteChar (c : Char) : String :=
  if quoteSafe c then String.mk [c]
  else String.mk ['%', hexDigit (c.toNat / 16), hexDigit (c.toNat % 16)]

/-- `urllib.parse.quote(s)` with the default `safe='/'`, for ASCII input. -/
def urlQuote (s : String) : String :=
  String.join (s.data.map quoteChar)

/-- The `oauth_url` string built by `discord_login` (main.py lines 1156-1169):
literal client id and permission bitmask, quoted redirect URI, and the quoted
space-joined scope list (adjacent Python string literals concatenate). -/
def oauth_url : String :=
  "https://discord.com/api/oauth2/authorize"
    ++ "?client_id=1303089786495565875"
    ++ "&permissions=8"
    ++ "&response_type=code"
    ++ "&redirect_uri=" ++ urlQuote "http://127.0.0.1:8000/auth/callback"
    ++ "&scope=" ++ urlQuote
        "bot applications.commands identify guilds guilds.members.read"

/-- A redirect response: status code and `Location` target. -/
structure RedirectResp where
  status_code : Nat
  location : String
deriving DecidableEq, Repr

/-- An HTTP-level error response (an `HTTPException` as FastAPI renders it,
or the plain 500 Starlette's `ServerErrorMiddleware` produces for an
unhandled exception). -/
structure HTTPErrorResp where
  status : Nat
  detail : String
deriving DecidableEq, Repr

/-- The names main.py line 10 binds from `urllib.parse`:
`from urllib.parse import quote, urlencode`.  A `from X import names`
statement binds only the listed names, never the package name `X` itself,
and no other statement of the module binds `urllib`. -/
def importedUrllibNames : List String :=
  ["quote", "urlencode"]

/-- Whether a global name lookup in the module succeeds for the urllib
machinery. -/
def nameBound (n : String) : Bool :=
  importedUrllibNames.contains n

/-- `GET /auth/login` handler `discord_login` (main.py lines 1153-1172).  Its
f-string evaluates `urllib.parse.quote(...)` (lines 1161-1162), which looks up
the global name `urllib`; that name is unbound (see `importedUrllibNames`), so
the handler raises `NameError` before any response is built, and Starlette's
`ServerErrorMiddleware` surfaces the unhandled exception as a plain 500
`Internal Server Error`.  Had the lookup succeeded, the handler would have
returned `RedirectResponse(url=oauth_url)`, whose Starlette default status
code is 307. -/
def discord_login : Except HTTPErrorResp RedirectResp :=
  if nameBound "urllib" then
    .ok { status_code := 307, location := oauth_url }
  else
    .error { status := 500, detail := "Internal Server Error" }

/-- Bool substring check used to state URL-content properties. -/
def begMatch : List Char → List Char → Bool
  | [], _ => true
  | _ :: _, [] => false
  | a :: as, b :: bs => a = b && begMatch as bs

/-- Whether `s` begins with `pre` (explicit recursion, in place of
`String.startsWith`, so that terms reduce inside the kernel). -/
def strBegins (s pre : String) : Bool :=
  begMatch pre.data s.data

/-- Whether `needle` occurs contiguously in `hay`. -/
def subOccurs (needle : List Char) : List Char → Bool
  | [] => begMatch needle []
  | b :: bs => begMatch needle (b :: bs) || subOccurs needle bs

/-- String-level wrapper of `subOccurs`. -/
def strContains (hay needle : String) : Bool :=
  subOccurs needle.data hay.data

/-!
## The OAuth callback

`discord_callback` (main.py lines 1174-1213) performs two upstream HTTP
requests.  Each upstream response is modelled by its status and its JSON body
as an association list; the environment record carries the two responses the
two endpoints would return.  The try-block's control flow is translated
exception-for-exception: a non-200 token response raises
`HTTPException(400, "Failed to get access token")`, a 200 token body without
the key `access_token` raises `KeyError('access_token')` at the subscript
`token_data['access_token']`, a non-200 profile response raises
`HTTPException(400, "Failed to get user info")`.  The enclosing
`except Exception as e` converts whatever was raised into
`HTTPException(400, str(e))`; Starlette's `HTTPException.__str__` returns
`f"{status_code}: {detail}"`, so the two re-raised HTTP exceptions surface
with details `400: Failed to get access token` and `400: Failed to get user
info`, while `str` of a `KeyError` is the `repr` of the missing key.
-/

/-- One upstream HTTP response: status code and JSON-object body. -/
structure UpstreamResponse where
  status : Nat
  body : List (String × String)
deriving DecidableEq, Repr

/-- The upstream world one callback invocation observes. -/
structure CallbackEnv where
  tokenResp : UpstreamResponse
  profileResp : UpstreamResponse
deriving DecidableEq, Repr

/-- First value bound to a key in a JSON object (Python dict subscript). -/
def jsonGet (body : List (String × String)) (k : String) : Option String :=
  (body.find? fun p => p.1 = k).map fun p => p.2

/-- The exceptions the try-block of `discord_callback` can raise. -/
inductive CallbackExc
| httpExc (status : Nat) (detail : String)
| keyError (key : String)
deriving DecidableEq, Repr

/-- Python `str(e)` for the exceptions above: Starlette's
`HTTPException.__str__` is `f"{self.status_code}: {self.detail}"`, and a
`KeyError` stringifies to the `repr` of its key. -/
def excMsg : CallbackExc → String
  | .httpExc s d => toString s ++ ": " ++ d
  | .keyError k => "\x27" ++ k ++ "\x27"

/-- Successful callback body: the profile JSON and the access token. -/
structure CallbackSuccess where
  user : List (String × String)
  access_token : String
deriving DecidableEq, Repr

/-- The try-block of `discord_callback`, exception paths made explicit. -/
def callbackBody (env : CallbackEnv) : Except CallbackExc CallbackSuccess :=
  if env.tokenResp.status ≠ 200 then
    .error (.httpExc 400 "Failed to get access token")
  else
    match jsonGet env.tokenResp.body "access_token" with
    | none => .error (.keyError "access_token")
    | some tok =>
      if env.profileResp.status ≠ 200 then
        .error (.httpExc 400 "Failed to get user info")
      else
        .ok { user := env.profileResp.body, access_token := tok }

/-- `GET /auth/callback` handler `discord_callback`: the try-block wrapped in
`except Exception as e: raise HTTPException(status_code=400, detail=str(e))`. -/
def discord_callback (env : CallbackEnv) :
    Except HTTPErrorResp CallbackSuccess :=
  match callbackBody env with
  | .ok v => .ok v
  | .error e => .error { status := 400, detail := excMsg e }

/-!
## Archived tickets

`get_old_tickets` (main.py lines 1846-1872) reads each `*.md` file of the
archive directory, renders it to HTML with `markdown.markdown`, and returns
`{id, content, file_path, last_modified}` entries sorted by `last_modified`
descending.  The dashboard's embedded `parseTicketContent` (main.py lines
1126-1141) then extracts title/author/created/status/tags from that RENDERED
HTML content with the regexes `/^#\s*(.+)$/m`, `/Created by:\s*(.+)$/m`,
`/Created on:\s*(.+)$/m`, `/Status:\s*(.+)$/m`, `/Tags:\s*(.+)$/m`.
-/

/-- Split a character list at a separator character; n separators yield n+1
(possibly empty) groups. -/
def splitOnChar (sep : Char) : List Char → List (List Char)
  | [] => [[]]
  | a :: as =>
    match splitOnChar sep as with
    | [] => [[]]
    | grp :: rest =>
      if a = sep then [] :: grp :: rest else (a :: grp) :: rest

/-- The lines of a text, in order. -/
def textLines (s : String) : List String :=
  (splitOnChar '\n' s.data).map String.mk

/-- Join strings with a separator. -/
def joinWith (sep : String) : List String → String
  | [] => ""
  | [x] => x
  | x :: y :: xs => x ++ sep ++ joinWith sep (y :: xs)

/-- Whether a line is blank (empty after the split on newlines). -/
def isBlankLine (l : String) : Bool :=
  l = ""

/-- Group consecutive non-blank lines into blocks, dropping blank lines, as
Python-Markdown splits a document into blocks. -/
def mdBlocks : List String → List (List String)
  | [] => []
  | l :: ls =>
    match mdBlocks ls with
    | [] => if isBlankLine l then [] else [[l]]
    | blk :: rest =>
      if isBlankLine l then [] :: blk :: rest
      else
        match blk, rest with
        | [], r => [l] :: r
        | b :: bs, r => (l :: b :: bs) :: r

/-- `markdown.markdown`, modelled for the document class the archive scenario
uses: a block whose first line is an ATX `# ` heading becomes an `<h1>`
element followed by a paragraph of its remaining lines; any other block
becomes one `<p>` element with its newlines kept; top-level elements join
with a newline. -/
def mdRenderBlock (blk : List String) : List String :=
  match blk with
  | [] => []
  | l :: rest =>
    if strBegins l "# " then
      ("<h1>" ++ String.mk (l.data.drop 2) ++ "</h1>") ::
        (if rest.isEmpty then [] else ["<p>" ++ joinWith "\n" rest ++ "</p>"])
    else
      ["<p>" ++ joinWith "\n" blk ++ "</p>"]

/-- Full document rendering (see `mdRenderBlock`). -/
def mdRender (s : String) : String :=
  joinWith "\n" ((mdBlocks (textLines s)).map mdRenderBlock).flatten

/-- JavaScript `\s` whitespace (the members occurring in this data). -/
def jsWs (c : Char) : Bool :=
  c = ' ' || c = '\t' || c = '\x0d'

/-- Drop leading JS whitespace. -/
def dropWs (s : String) : String :=
  String.mk (s.data.dropWhile jsWs)

/-- JavaScript `String.prototype.trim`. -/
def jsTrim (s : String) : String :=
  String.mk (((s.data.dropWhile jsWs).reverse.dropWhile jsWs).reverse)

/-- Index of the first occurrence of `needle` in `hay`, if any. -/
def subIndex (needle : List Char) : List Char → Option Nat
  | [] => if begMatch needle [] then some 0 else none
  | b :: bs =>
    if begMatch needle (b :: bs) then some 0
    else (subIndex needle bs).map fun i => i + 1

/-- The JS regex `/^#\s*(.+)$/m`: the first line beginning with `#` whose
remainder after optional whitespace is non-empty, returning that remainder. -/
def matchHeading (content : String) : Option String :=
  (textLines content).findSome? fun l =>
    if strBegins l "#" then
      let rest := dropWs (String.mk (l.data.drop 1))
      if rest = "" then none else some rest
    else none

/-- The JS regex `/<label>\s*(.+)$/m`: in the first line containing the label,
the remainder of the line after the label and optional whitespace, when
non-empty. -/
def matchLabel (label : String) (content : String) : Option String :=
  (textLines content).findSome? fun l =>
    match subIndex label.data l.data with
    | none => none
    | some i =>
      let rest := dropWs (String.mk (l.data.drop (i + label.data.length)))
      if rest = "" then none else some rest

/-- The record `parseTicketContent` returns. -/
structure TicketInfo where
  title : Option String
  author : Option String
  created : Option String
  status : Option String
  tags : List String
deriving DecidableEq, Repr

/-- `parseTicketContent(content)` of the dashboard script: regex extraction
over the (HTML) content string; tags are the comma-split, trimmed pieces of
the `Tags:` capture, `[]` when the regex does not match. -/
def parseTicketContent (content : String) : TicketInfo :=
  { title := matchHeading content
    author := matchLabel "Created by:" content
    created := matchLabel "Created on:" content
    status := matchLabel "Status:" content
    tags :=
      match matchLabel "Tags:" content with
      | none => []
      | some t => (splitOnChar ',' t.data).map fun p => jsTrim (String.mk p) }

/-- One file of the archive directory: stem (filename without `.md`), raw
markdown text, and modification time. -/
structure ArchiveFile where
  stem : String
  raw : String
  mtime : Nat
deriving DecidableEq, Repr

/-- One entry of the `GET /api/old-tickets` response body.  `last_modified` is
the file's mtime (the source renders it as an ISO timestamp string, whose
lexicographic order is the numeric order). -/
structure OldTicketEntry where
  id : String
  content : String
  file_path : String
  last_modified : Nat
deriving DecidableEq, Repr

/-- Insert into a list kept sorted by `last_modified` descending (Python
`sorted(..., reverse=True)` is a stable descending sort). -/
def insertByMtimeDesc (e : OldTicketEntry) :
    List OldTicketEntry → List OldTicketEntry
  | [] => [e]
  | x :: xs =>
    if e.last_modified ≤ x.last_modified then x :: insertByMtimeDesc e xs
    else e :: x :: xs

/-- Stable descending sort by `last_modified`. -/
def sortByMtimeDesc : List OldTicketEntry → List OldTicketEntry
  | [] => []
  | x :: xs => insertByMtimeDesc x (sortByMtimeDesc xs)

/-- `GET /api/old-tickets` handler `get_old_tickets`, over an archive directory
given as a file list: each markdown file becomes an entry whose `content` is
the `markdown.markdown` rendering of the raw text, sorted by `last_modified`
descending. -/
def get_old_tickets (files : List ArchiveFile) : List OldTicketEntry :=
  sortByMtimeDesc (files.map fun f =>
    { id := f.stem
      content := mdRender f.raw
      file_path := "/Users/martintomek/vfx-discord-app/tickets/"
        ++ f.stem ++ ".md"
      last_modified := f.mtime })

/-!
## Concrete fixtures
-/

/-- A valid `TicketCreate` payload (the spec's crash-on-export scenario). -/
def crashTicket : TicketCreate :=
  { title := "Crash on export"
    description := "Export crashes on frame 101"
    status := .open_
    priority := .high
    type := .bug
    assigned_to := none
    project_id := "proj1"
    asset_id := none
    shot_id := none
    due_date := none
    tags := []
    environment := none
    reproducibility_steps := none
    time_estimate := none }

/-- A second, different valid `TicketCreate` payload. -/
def flickerTicket : TicketCreate :=
  { title := "Key light flickers"
    description := "Flicker in shot 040"
    status := .open_
    priority := .medium
    type := .bug
    assigned_to := none
    project_id := "proj2"
    asset_id := none
    shot_id := none
    due_date := none
    tags := []
    environment := none
    reproducibility_steps := none
    time_estimate := none }

/-- The archived document of the spec's `listArchived` scenario. -/
def lightingDoc : String :=
  "# Fix lighting bug\nCreated by: alice\nStatus: closed\nTags: lighting, bug"

/-!
## Claims
-/

/-- Claim C1: the spec asserts that `create` returns a ticket whose
server-generated id (format `TICKET-<date>-<hash fragment>`) is unique among
all previously created ids.  In the code the id expression
`f"TICKET-{date}-{hash(now)}"[:16]` is sliced to 16 characters, but
`TICKET-` plus the 8-digit date plus the separator is already 16 characters,
so the hash fragment is sliced away entirely: two creations on the same day
with different hashes, different timestamps and different payloads receive the
very same id `TICKET-20261012-`. -/
theorem C1_same_day_id_collision :
    (create_ticket crashTicket "user123" ⟨2026, 10, 12⟩ 11111 1000 1000).id
      = (create_ticket flickerTicket "user123" ⟨2026, 10, 12⟩
          (-987654321) 5000 5000).id
    ∧ (create_ticket crashTicket "user123" ⟨2026, 10, 12⟩ 11111 1000 1000).id
      = "TICKET-20261012-"
    ∧ crashTicket ≠ flickerTicket := by
  refine ⟨rfl, rfl, by decide⟩

/-- Claim C2: the spec asserts that `get`/`update`/`assign`/`addComment`/
`history` fail with `NotFound` (404) on an id absent from the store.  The
handlers consult no store and have no failure branch at all: each is a total
function returning a mock success payload for every id, here evaluated at the
absent id `TICKET-MISSING`. -/
theorem C2_missing_id_never_not_found :
    (get_ticket "TICKET-MISSING" 1000 1000).id = "TICKET-MISSING"
    ∧ (get_ticket "TICKET-MISSING" 1000 1000).title = "Sample Ticket"
    ∧ (update_ticket "TICKET-MISSING" emptyUpdate 2000).id = "TICKET-MISSING"
    ∧ (assign_ticket "TICKET-MISSING" "alice").message
        = "Ticket assigned successfully"
    ∧ (add_ticket_comment "TICKET-MISSING" ⟨"ping", "alice", 0, []⟩ 7).message
        = "Comment added successfully"
    ∧ (get_ticket_history "TICKET-MISSING" 2000).history.length = 3 := by
  exact ⟨rfl, rfl, rfl, rfl, rfl, rfl⟩

/-- Claim C3: the spec asserts the round-trip `get(create(x).id) = create(x)`.
`get_ticket` returns the same fixed sample ticket for every id, so fetching a
freshly created ticket (even with identical timestamps) yields the mock
`"Sample Ticket"`, not the created `"Crash on export"` ticket. -/
theorem C3_roundtrip_fails :
    (create_ticket crashTicket "user123" ⟨2026, 10, 12⟩ 42 1000 1000).title
      = "Crash on export"
    ∧ (get_ticket
        (create_ticket crashTicket "user123" ⟨2026, 10, 12⟩ 42 1000 1000).id
        1000 1000).title = "Sample Ticket"
    ∧ get_ticket
        (create_ticket crashTicket "user123" ⟨2026, 10, 12⟩ 42 1000 1000).id
        1000 1000
      ≠ create_ticket crashTicket "user123" ⟨2026, 10, 12⟩ 42 1000 1000 := by
  refine ⟨rfl, rfl, by decide⟩

/-- Claim C4: the spec asserts `update` keeps `id`, `created_by`, `created_at`
immutable and overwrites exactly the non-null payload fields.  The handler
fabricates a mock from the payload alone: for a ticket created with
`created_by = "user123"`, `created_at = 1000`, `priority = high`, an update
with the empty payload reports `created_by = "original_user"` and
`created_at = now - 86400`, and an update carrying only `status` still
replaces the stored `high` priority by the mock `medium` — so absent fields
are not left unchanged and the immutable fields are not preserved. -/
theorem C4_update_fabricates_mock :
    (update_ticket
        (create_ticket crashTicket "user123" ⟨2026, 10, 12⟩ 42 1000 1000).id
        emptyUpdate 2000).created_by = "original_user"
    ∧ (create_ticket crashTicket "user123" ⟨2026, 10, 12⟩ 42 1000 1000
        ).created_by = "user123"
    ∧ (update_ticket
        (create_ticket crashTicket "user123" ⟨2026, 10, 12⟩ 42 1000 1000).id
        emptyUpdate 2000).created_at = 2000 - 86400
    ∧ (create_ticket crashTicket "user123" ⟨2026, 10, 12⟩ 42 1000 1000
        ).created_at = 1000
    ∧ (update_ticket
        (create_ticket crashTicket "user123" ⟨2026, 10, 12⟩ 42 1000 1000).id
        emptyUpdate 2000).title = "Original Title"
    ∧ (update_ticket
        (create_ticket crashTicket "user123" ⟨2026, 10, 12⟩ 42 1000 1000).id
        { emptyUpdate with status := some .resolved } 2000).priority
      = .medium
    ∧ (create_ticket crashTicket "user123" ⟨2026, 10, 12⟩ 42 1000 1000
        ).priority = .high := by
  exact ⟨rfl, rfl, rfl, rfl, rfl, rfl, rfl⟩

/-- Claim C5 counterexample: the claim says a failed exchange propagates the
upstream response body as the error detail.  Two token responses with status
500 and DIFFERENT bodies produce the identical fixed detail
`"400: Failed to get access token"` (the catch-all's `str(e)` of the inner
`HTTPException(400, "Failed to get access token")`), so the detail cannot be
the upstream body. -/
theorem C5_detail_not_upstream_body :
    discord_callback
        { tokenResp := { status := 500, body := [("error", "A")] }
          profileResp := { status := 200, body := [] } }
      = .error { status := 400, detail := "400: Failed to get access token" }
    ∧ discord_callback
        { tokenResp := { status := 500, body := [("error", "B")] }
          profileResp := { status := 200, body := [] } }
      = .error { status := 400, detail := "400: Failed to get access token" }
    ∧ ([("error", "A")] : List (String × String)) ≠ [("error", "B")] := by
  refine ⟨rfl, rfl, by decide⟩

/-- Claim C5 (amended): the exchange step fails exactly when the token
endpoint's status is not 200, surfaced as a 400 whose detail is the FIXED
message `"400: Failed to get access token"` — `str(e)` of the inner
`HTTPException(400, "Failed to get access token")`, not the upstream body;
when the token step succeeded and yielded an `access_token`, the profile step
fails exactly when the profile endpoint's status is not 200, with fixed
detail `"400: Failed to get user info"`. -/
theorem C5_nonOk_upstream_yields_fixed_400 (env : CallbackEnv) :
    ((discord_callback env
        = .error { status := 400,
                   detail := "400: Failed to get access token" })
      ↔ env.tokenResp.status ≠ 200)
    ∧ (env.tokenResp.status = 200 →
        ((discord_callback env
            = .error { status := 400,
                       detail := "400: Failed to get user info" })
          ↔ ((jsonGet env.tokenResp.body "access_token").isSome
              ∧ env.profileResp.status ≠ 200))) := by
  unfold discord_callback callbackBody
  by_cases h1 : env.tokenResp.status = 200
  · rcases hj : jsonGet env.tokenResp.body "access_token" with _ | tok
    · simp [h1, hj, excMsg]
      try decide
    · by_cases h2 : env.profileResp.status = 200
      · simp [h1, hj, h2, excMsg]
        try decide
      · simp [h1, hj, h2, excMsg]
        try decide
  · simp [h1, excMsg]
    try decide

/-- Witness for C5: the amended statement instantiated at a concrete failing
exchange. -/
theorem C5_nonOk_upstream_witness :
    ((discord_callback
          { tokenResp := { status := 500, body := [] }
            profileResp := { status := 200, body := [] } }
        = .error { status := 400,
                   detail := "400: Failed to get access token" })
      ↔ ({ status := 500, body := [] } : UpstreamResponse).status ≠ 200)
    ∧ (({ status := 500, body := [] } : UpstreamResponse).status = 200 →
        ((discord_callback
              { tokenResp := { status := 500, body := [] }
                profileResp := { status := 200, body := [] } }
            = .error { status := 400,
                       detail := "400: Failed to get user info" })
          ↔ ((jsonGet ({ status := 500, body := [] } :
                UpstreamResponse).body "access_token").isSome
              ∧ ({ status := 200, body := [] } :
                  UpstreamResponse).status ≠ 200))) :=
  C5_nonOk_upstream_yields_fixed_400
    { tokenResp := { status := 500, body := [] }
      profileResp := { status := 200, body := [] } }

/-- Claim C6: the spec asserts `GET /auth/login` responds with a 302 redirect
to the authorize URL.  Line 10 imports only `quote` and `urlencode` from
`urllib.parse`, so the name `urllib` is unbound; the handler's
`urllib.parse.quote(...)` (lines 1161-1162) raises `NameError` before any
response is built, and the endpoint surfaces an unhandled-exception 500 —
never a redirect of any status.  (The intended URL each quoted component
would have contributed is `oauth_url`; the lookup failure precedes its
construction.) -/
theorem C6_login_raises_name_error :
    nameBound "urllib" = false
    ∧ discord_login
      = .error { status := 500, detail := "Internal Server Error" }
    ∧ (∀ r : RedirectResp,
        discord_login = .ok r → False) := by
  refine ⟨rfl, rfl, ?_⟩
  intro r h
  have h2 : (Except.error { status := 500, detail := "Internal Server Error" }
      : Except HTTPErrorResp RedirectResp) = .ok r := h
  exact Except.noConfusion h2

/-- Witness for C6: the universally quantified no-redirect conjunct applied at
the concrete 302 redirect the claim expects. -/
theorem C6_login_no_redirect_witness :
    nameBound "urllib" = false
    ∧ discord_login
      = .error { status := 500, detail := "Internal Server Error" }
    ∧ (discord_login = .ok { status_code := 302, location := oauth_url }
        → False) := by
  refine ⟨(C6_login_raises_name_error).1, (C6_login_raises_name_error).2.1,
    (C6_login_raises_name_error).2.2 { status_code := 302, location := oauth_url }⟩

/-- Claim C7: the spec asserts `GET /api/tickets/statistics` responds with an
aggregate body.  The route `/api/tickets/{ticket_id}` is registered before
`/api/tickets/statistics`, and Starlette dispatches to the first full match,
so the request is served by `get_ticket` with `ticket_id = "statistics"` and
yields a per-ticket mock `TicketResponse`; the statistics route, though
present in the table, is unreachable. -/
theorem C7_statistics_route_shadowed :
    resolve .GET ["api", "tickets", "statistics"] = some .getTicket
    ∧ (some Handler.getTicket ≠ some Handler.getTicketStatistics)
    ∧ captures [.lit "api", .lit "tickets", .param "ticket_id"]
        ["api", "tickets", "statistics"] = [("ticket_id", "statistics")]
    ∧ (get_ticket "statistics" 1000 1000).id = "statistics"
    ∧ (get_ticket "statistics" 1000 1000).title = "Sample Ticket"
    ∧ (Method.GET, [Seg.lit "api", Seg.lit "tickets", Seg.lit "statistics"],
        Handler.getTicketStatistics) ∈ routeTable := by
  refine ⟨by decide, by decide, by decide, rfl, rfl, by decide⟩

/-- Claim C8 counterexample: the claim says that for the twice-registered
routes the handler defined LATER in the file serves requests.  Starlette
dispatches to the first matching route in registration order, so
`POST /api/tickets` is served by the first `create_ticket` registration and
`GET /api/tickets` by `list_tickets`, not by the later registrations. -/
theorem C8_later_registration_does_not_serve :
    resolve .POST ["api", "tickets"] = some .createTicketV1
    ∧ (some Handler.createTicketV1 ≠ some Handler.createTicketV2)
    ∧ resolve .GET ["api", "tickets"] = some .listTickets
    ∧ (some Handler.listTickets ≠ some Handler.getTicketsV2) := by
  refine ⟨by decide, by decide, by decide, by decide⟩

/-- Claim C8 (amended): both colliding registrations are present in the route
table, and the handler defined EARLIER in the source file is the one that
serves requests; the later registration is silently shadowed.  The two
creation handlers are observably different (their id schemes disagree). -/
theorem C8_earlier_registration_serves :
    (routeTable.filter fun r =>
        r.1 = Method.POST ∧ r.2.1 = [Seg.lit "api", Seg.lit "tickets"]).map
        (fun r => r.2.2)
      = [.createTicketV1, .createTicketV2]
    ∧ resolve .POST ["api", "tickets"] = some .createTicketV1
    ∧ (routeTable.filter fun r =>
        r.1 = Method.GET ∧ r.2.1 = [Seg.lit "api", Seg.lit "tickets"]).map
        (fun r => r.2.2)
      = [.listTickets, .getTicketsV2]
    ∧ resolve .GET ["api", "tickets"] = some .listTickets
    ∧ make_ticket_id ⟨2026, 10, 12⟩ 42 ≠ create_ticket_v2_id 42 := by
  refine ⟨by decide, by decide, by decide, by decide, by decide⟩

/-- Claim C9: the spec's scenario expects `title == "Fix lighting bug"`,
`author == "alice"`, `status == "closed"`, `tags == ["lighting","bug"]` for
the archived document.  `get_old_tickets` hands the dashboard the RENDERED
HTML (`<h1>Fix lighting bug</h1>` followed by one paragraph), on which
`parseTicketContent` runs its markdown-shaped regexes: the `^#` title pattern
no longer matches any line, and the `Tags:` capture reaches the end of the
paragraph's last line, swallowing the closing `</p>`.  Author and status are
extracted as expected; title is `null` and the tags are
`["lighting", "bug</p>"]`. -/
theorem C9_extraction_runs_on_html :
    (get_old_tickets [⟨"ticket-001", lightingDoc, 1000⟩]).map
        (fun e => e.content)
      = ["<h1>Fix lighting bug</h1>\n<p>Created by: alice\nStatus: closed\nTags: lighting, bug</p>"]
    ∧ parseTicketContent (mdRender lightingDoc)
      = { title := none
          author := some "alice"
          created := none
          status := some "closed"
          tags := ["lighting", "bug</p>"] }
    ∧ (parseTicketContent (mdRender lightingDoc)).title
        ≠ some "Fix lighting bug"
    ∧ (parseTicketContent (mdRender lightingDoc)).tags
        ≠ ["lighting", "bug"] := by
  refine ⟨rfl, rfl, by decide, by decide⟩

/-- Claim C10: every exception raised inside the `GET /auth/callback`
try-block — the two deliberate non-200 `HTTPException`s and the `KeyError`
from `token_data['access_token']` on a 200 token response lacking the field —
is caught by the handler's `except Exception` clause and surfaced as an HTTP
400 whose detail is `str` of the raised exception; no other status is ever
produced for an error, and the handler touches no state (its embedding is a
pure function of the upstream responses). -/
theorem C10_callback_errors_are_400 (env : CallbackEnv) (r : HTTPErrorResp)
    (h : discord_callback env = .error r) :
    r.status = 400
    ∧ ∃ e, callbackBody env = .error e ∧ r.detail = excMsg e := by
  unfold discord_callback at h
  cases hb : callbackBody env with
  | ok v => rw [hb] at h; exact absurd h (by simp)
  | error e =>
    rw [hb] at h
    have hr : ({ status := 400, detail := excMsg e } : HTTPErrorResp) = r := by
      exact congrArg (fun x => match x with
        | Except.error y => y
        | Except.ok _ => { status := 400, detail := excMsg e }) h
    exact ⟨by rw [← hr], e, rfl, by rw [← hr]⟩

/-- Witness for C10: the missing-`access_token` lookup failure on a 200 token
response is surfaced as a 400 whose detail is `str(KeyError('access_token'))`,
i.e. `'access_token'` in quotes. -/
theorem C10_callback_errors_witness :
    ({ status := 400, detail := "\x27access_token\x27" } :
        HTTPErrorResp).status = 400
    ∧ ∃ e, callbackBody
          { tokenResp := { status := 200, body := [("token_type", "Bearer")] }
            profileResp := { status := 200, body := [] } }
        = .error e
      ∧ ({ status := 400, detail := "\x27access_token\x27" } :
          HTTPErrorResp).detail = excMsg e :=
  C10_callback_errors_are_400
    { tokenResp := { status := 200, body := [("token_type", "Bearer")] }
      profileResp := { status := 200, body := [] } }
    { status := 400, detail := "\x27access_token\x27" } rfl

end VfxApp
